import Mathlib

/-!
Shallow embedding of `UPISAS/adaptation.py`
(`AdvancedWildfireAdaptationStrategy`), the Analyze+Plan decision engine of
the wildfire-tracking adaptation loop.

Modelling conventions:
* Coordinates, intensities, speeds and thresholds are rationals (exact values
  of the numeric inputs); Euclidean distances and priority scores live in `ℝ`
  because `np.sqrt` / `np.linalg.norm` enter their computation.
* Python exceptions are modelled by an `Except PyError` result.
* Values that may be Python `None` (the result of `dict.get` on a missing
  key) are modelled with `Option`.
* The randomness source (`np.random.choice([-1, 1])`) is an injected stream
  `rand : ℕ → ℚ`, consumed in call order.
-/

/-- UAV record `{id, x, y}` from the snapshot's `uavDetails`. -/
structure UAV where
  id : ℤ
  x : ℚ
  y : ℚ
deriving DecidableEq

/-- Fire-zone record `{x, y, intensity}` from the snapshot's `fire_zones`. -/
structure FireZone where
  x : ℚ
  y : ℚ
  intensity : ℚ
deriving DecidableEq

/-- Wind record built by `monitor`: `{active, direction, velocity}`. -/
structure Wind where
  active : Bool
  direction : String
  velocity : ℚ

/-- Predicted zone dict `{x, y}` appended by `predict_fire_spread`. -/
structure PredictedPos where
  x : ℚ
  y : ℚ
deriving DecidableEq

/-- Python exceptions raised by the strategy's pure helpers.  `typeError`
models iterating over `None`; `valueError` models `min()` on an empty
sequence.  The constructor `inputError` is Modelled from the spec: the spec's
error-taxonomy entry "InputError" (operation name plus offending input) has
no counterpart anywhere in the source; it exists here only so statements can
distinguish it from the errors the code actually raises. -/
inductive PyError where
  | typeError (msg : String)
  | valueError (msg : String)
  | inputError (op : String) (input : String)
deriving DecidableEq

/-- Adjustment command dict `{id, action, target, speed}`. -/
structure Adjustment where
  id : ℤ
  action : String
  target : ℚ × ℚ
  speed : ℚ
deriving DecidableEq

/-- Configuration and state of the strategy object: `max_uav_speed=2`,
`collision_distance=10` and `observation_radius = 8  # Initial default`
from `__init__`. -/
structure Strategy where
  max_uav_speed : ℚ := 2
  collision_distance : ℚ := 10
  observation_radius : ℤ := 8

/-- Planar Euclidean distance, as computed by
`np.linalg.norm(np.array([x1, y1]) - np.array([x2, y2]))` and by
`np.sqrt((x1 - x2) ** 2 + (y1 - y2) ** 2)`. -/
noncomputable def euclid (x1 y1 x2 y2 : ℚ) : ℝ :=
  Real.sqrt (((x1 : ℝ) - (x2 : ℝ)) ^ 2 + ((y1 : ℝ) - (y2 : ℝ)) ^ 2)

/-- Distance from a zone to the nearest UAV of the non-empty list `u :: us`:
Python's `min(...)` over the generator of distances. -/
noncomputable def distance_to_nearest_uav (z : FireZone) (u : UAV) (us : List UAV) : ℝ :=
  us.foldl (fun m v => min m (euclid z.x z.y v.x v.y)) (euclid z.x z.y u.x u.y)

/-- Priority score `zone["intensity"] / (distance_to_nearest_uav + 1)`. -/
noncomputable def priority_score (z : FireZone) (u : UAV) (us : List UAV) : ℝ :=
  (z.intensity : ℝ) / (distance_to_nearest_uav z u us + 1)

/-- Entry `{"zone": zone, "priority": priority_score}` of the priorities list. -/
structure PrioritizedZone where
  zone : FireZone
  priority : ℝ

/-- Loop of `prioritize_fire_zones` building the unsorted `priorities` list:
one entry per zone, in input order.  When the UAV list is empty and at least
one zone exists, `min()` over the empty generator raises
`ValueError: min() arg is an empty sequence`. -/
noncomputable def score_zones : List FireZone → List UAV → Except PyError (List PrioritizedZone)
  | [], _ => .ok []
  | _ :: _, [] => .error (.valueError "min() arg is an empty sequence")
  | z :: rest, u :: us =>
    (score_zones rest (u :: us)).map fun tail => ⟨z, priority_score z u us⟩ :: tail

/-- Python's `sorted(priorities, key=lambda x: x["priority"], reverse=True)`:
a stable sort placing higher priorities first.  Embedded as the verified
stable `List.mergeSort` with `le a b ↔ b.priority ≤ a.priority`. -/
noncomputable def sort_by_priority_desc (l : List PrioritizedZone) : List PrioritizedZone :=
  l.mergeSort fun a b => decide (b.priority ≤ a.priority)

/-- Embedding of `prioritize_fire_zones`. -/
noncomputable def prioritize_fire_zones (fire_zones : List FireZone) (uav_positions : List UAV) :
    Except PyError (List PrioritizedZone) :=
  (score_zones fire_zones uav_positions).map sort_by_priority_desc

/-- Embedding of `predict_fire_spread`: the for-loop appends a shifted
position when the wind direction matches one of the four cardinal cases and
appends nothing otherwise.  The `active` and `velocity` fields of the wind
record are never read. -/
def predict_fire_spread (wind : Wind) (fire_zones : List FireZone) : List PredictedPos :=
  fire_zones.foldr
    (fun zone acc =>
      if wind.direction = "north" then ⟨zone.x, zone.y - 1⟩ :: acc
      else if wind.direction = "south" then ⟨zone.x, zone.y + 1⟩ :: acc
      else if wind.direction = "east" then ⟨zone.x + 1, zone.y⟩ :: acc
      else if wind.direction = "west" then ⟨zone.x - 1, zone.y⟩ :: acc
      else acc)
    []

/-- Embedding of `adjust_observation_radius` as a state transformer on the
radius: `max(radius - 1, 5)` for fast fires (`fire_spread_speed > 3`),
`min(radius + 1, 15)` otherwise. -/
def adjust_observation_radius (fire_spread_speed : ℚ) (observation_radius : ℤ) : ℤ :=
  if fire_spread_speed > 3 then max (observation_radius - 1) 5
  else min (observation_radius + 1) 15

/-- Radius after feeding a sequence of `fire_spread_speed` values to
`adjust_observation_radius`, starting from the initial default `8`. -/
def radius_after (speeds : List ℚ) : ℤ :=
  speeds.foldl (fun r sp => adjust_observation_radius sp r) 8

/-- Python's `min(uav_positions, key=...)` over the non-empty list `u :: us`:
the first element attaining the minimal distance to the point `(zx, zy)`
(`min` replaces its best candidate only on strict decrease). -/
noncomputable def nearest_uav (zx zy : ℚ) (u : UAV) (us : List UAV) : UAV :=
  us.foldl (fun best v => if euclid zx zy v.x v.y < euclid zx zy best.x best.y then v else best) u

/-- Loop of `allocate_uavs` over the prioritized zones.  For each zone the
code calls `min(uav_positions, key=...)`: if `uav_positions` is `None` this
raises `TypeError: NoneType object is not iterable`; if it is an empty list
it raises `ValueError: min() arg is an empty sequence`. -/
noncomputable def allocate_go (max_uav_speed : ℚ) (uav_positions : Option (List UAV)) :
    List PrioritizedZone → Except PyError (List Adjustment)
  | [] => .ok []
  | pz :: rest =>
    match uav_positions with
    | none => .error (.typeError "NoneType object is not iterable")
    | some [] => .error (.valueError "min() arg is an empty sequence")
    | some (u :: us) =>
      (allocate_go max_uav_speed uav_positions rest).map fun tail =>
        { id := (nearest_uav pz.zone.x pz.zone.y u us).id
          action := "move"
          target := (pz.zone.x, pz.zone.y)
          speed := max_uav_speed } :: tail

/-- Embedding of `allocate_uavs`.  Both arguments come from `dict.get` in
`plan`, hence the `Option`s: iterating a `None` zone list also raises
`TypeError`. -/
noncomputable def allocate_uavs (max_uav_speed : ℚ) (prioritized_zones : Option (List PrioritizedZone))
    (uav_positions : Option (List UAV)) : Except PyError (List Adjustment) :=
  match prioritized_zones with
  | none => .error (.typeError "NoneType object is not iterable")
  | some zs => allocate_go max_uav_speed uav_positions zs

/-- Embedding of `detect_collisions`: for each index `i`, pair `uav1 = l[i]`
with every later `uav2 ∈ l[i+1:]` whose distance is strictly below
`security_distance`. -/
noncomputable def detect_collisions : List UAV → ℚ → List (UAV × UAV)
  | [], _ => []
  | u1 :: rest, security_distance =>
    ((rest.filter fun u2 =>
        decide (euclid u1.x u1.y u2.x u2.y < (security_distance : ℝ))).map
      fun u2 => (u1, u2)) ++ detect_collisions rest security_distance

/-- Embedding of `resolve_collision`.  The outcomes of the four
`np.random.choice([-1, 1])` calls are supplied by `rand`, consumed in call
order: `rand 0`, `rand 1` are uav1's x- and y-offsets, `rand 2`, `rand 3`
are uav2's. -/
def resolve_collision (max_uav_speed : ℚ) (uav1 uav2 : UAV) (rand : ℕ → ℚ) : List Adjustment :=
  [{ id := uav1.id
     action := "move"
     target := (uav1.x + rand 0, uav1.y + rand 1)
     speed := max_uav_speed / 2 },
   { id := uav2.id
     action := "move"
     target := (uav2.x + rand 2, uav2.y + rand 3)
     speed := max_uav_speed / 2 }]

/-- Snapshot record returned by `monitor` and consumed by `analyze`. -/
structure Snapshot where
  uav_details : List UAV
  fire_zones : List FireZone
  wind : Wind
  smoke_active : Bool
  fire_spread_speed : ℚ

/-- Dict literal returned by `analyze`: it carries exactly the keys
`prioritized_zones`, `predicted_zones` and `collision_warnings` — in
particular it has no key `uav_details`. -/
structure AnalysisResults where
  prioritized_zones : List PrioritizedZone
  predicted_zones : List PredictedPos
  collision_warnings : List (UAV × UAV)

/-- Result of `analysis_results.get("uav_details")` in `plan`: the key is
absent from the dict built by `analyze`, so `dict.get` returns `None`. -/
def AnalysisResults.get_uav_details (_ : AnalysisResults) : Option (List UAV) := none

/-- Result of `analysis_results.get("prioritized_zones")`: the key is present. -/
def AnalysisResults.get_prioritized_zones (r : AnalysisResults) : Option (List PrioritizedZone) :=
  some r.prioritized_zones

/-- Result of `analysis_results.get("collision_warnings")`: the key is present. -/
def AnalysisResults.get_collision_warnings (r : AnalysisResults) : Option (List (UAV × UAV)) :=
  some r.collision_warnings

/-- Embedding of `analyze`: prioritize, predict, detect collisions, update
the radius state, and return the three-key result dict together with the
updated strategy state. -/
noncomputable def analyze (s : Strategy) (data : Snapshot) :
    Except PyError (AnalysisResults × Strategy) :=
  (prioritize_fire_zones data.fire_zones data.uav_details).map fun prioritized_zones =>
    ({ prioritized_zones := prioritized_zones
       predicted_zones := predict_fire_spread data.wind data.fire_zones
       collision_warnings := detect_collisions data.uav_details s.collision_distance },
     { s with observation_radius :=
        adjust_observation_radius data.fire_spread_speed s.observation_radius })

/-- Loop of `plan` over the collision warnings, extending the adjustment list
with `resolve_collision` for each pair; each call consumes four draws from
the randomness stream. -/
def resolve_all (max_uav_speed : ℚ) (rand : ℕ → ℚ) :
    List (UAV × UAV) → ℕ → List Adjustment
  | [], _ => []
  | (u1, u2) :: rest, k =>
    resolve_collision max_uav_speed u1 u2 (fun n => rand (k + n)) ++
      resolve_all max_uav_speed rand rest (k + 4)

/-- Embedding of `plan`: read the three keys with `dict.get`, allocate UAVs
to the prioritized zones, then resolve collisions and concatenate. -/
noncomputable def plan (s : Strategy) (rand : ℕ → ℚ) (analysis_results : AnalysisResults) :
    Except PyError (List Adjustment) :=
  (allocate_uavs s.max_uav_speed analysis_results.get_prioritized_zones
      analysis_results.get_uav_details).bind fun assignments =>
    match analysis_results.get_collision_warnings with
    | none => .error (.typeError "NoneType object is not iterable")
    | some warnings => .ok (assignments ++ resolve_all s.max_uav_speed rand warnings 0)

/-- Test whether a result failed with the spec's InputError (it never does:
the constructor is not produced by any embedded operation). -/
def is_input_error {α : Type} : Except PyError α → Bool
  | .error (.inputError _ _) => true
  | _ => false

/-! ## Radius controller (C4, C10) -/

lemma adjust_observation_radius_bounds (sp : ℚ) (r : ℤ) (h5 : 5 ≤ r) (h15 : r ≤ 15) :
    5 ≤ adjust_observation_radius sp r ∧ adjust_observation_radius sp r ≤ 15 := by
  unfold adjust_observation_radius
  split <;> omega

lemma radius_foldl_bounds (speeds : List ℚ) :
    ∀ r : ℤ, 5 ≤ r → r ≤ 15 →
      5 ≤ speeds.foldl (fun r sp => adjust_observation_radius sp r) r ∧
      speeds.foldl (fun r sp => adjust_observation_radius sp r) r ≤ 15 := by
  induction speeds with
  | nil => intro r h5 h15; simpa using ⟨h5, h15⟩
  | cons sp rest ih =>
    intro r h5 h15
    have h := adjust_observation_radius_bounds sp r h5 h15
    simpa using ih _ h.1 h.2

/-- C4: starting from the initial radius 8, after any finite sequence of
`fire_spread_speed` inputs the radius lies in `[5, 15]`, and one further step
subtracts exactly 1 when the speed exceeds 3 (unless clamped at 5) and adds
exactly 1 otherwise (unless clamped at 15). -/
theorem c4_radius_bounds_and_steps : ∀ speeds : List ℚ,
    (5 ≤ radius_after speeds ∧ radius_after speeds ≤ 15) ∧
    ∀ sp : ℚ, radius_after (speeds ++ [sp]) =
      if 3 < sp then (if radius_after speeds = 5 then 5 else radius_after speeds - 1)
      else (if radius_after speeds = 15 then 15 else radius_after speeds + 1) := by
  intro speeds
  have hb : 5 ≤ radius_after speeds ∧ radius_after speeds ≤ 15 :=
    radius_foldl_bounds speeds 8 (by norm_num) (by norm_num)
  refine ⟨hb, ?_⟩
  intro sp
  have hstep : radius_after (speeds ++ [sp]) =
      adjust_observation_radius sp (radius_after speeds) := by
    simp [radius_after, List.foldl_append]
  rw [hstep]
  rcases hb with ⟨h5, h15⟩
  unfold adjust_observation_radius
  split <;> split <;> omega

/-- C10: the controller is idempotent at the boundaries: at radius 5 a fast
fire (`fire_spread_speed > 3`) leaves it at 5, and at radius 15 a slow fire
(`fire_spread_speed ≤ 3`) leaves it at 15. -/
theorem c10_boundary_idempotent : ∀ sp : ℚ,
    (3 < sp → adjust_observation_radius sp 5 = 5) ∧
    (sp ≤ 3 → adjust_observation_radius sp 15 = 15) := by
  intro sp
  constructor
  · intro h
    simp only [adjust_observation_radius, gt_iff_lt, if_pos h]
    rfl
  · intro h
    simp only [adjust_observation_radius, gt_iff_lt, if_neg (not_lt.mpr h)]
    rfl

theorem c10_boundary_idempotent_witness :
    (3 < (4 : ℚ) ∧ adjust_observation_radius 4 5 = 5) ∧
    ((2 : ℚ) ≤ 3 ∧ adjust_observation_radius 2 15 = 15) :=
  ⟨⟨by norm_num, (c10_boundary_idempotent 4).1 (by norm_num)⟩,
   ⟨by norm_num, (c10_boundary_idempotent 2).2 (by norm_num)⟩⟩

/-! ## Fire-spread predictor (C8, C2) -/

/-- C8: for each cardinal wind direction the predictor shifts every zone by
exactly one unit along that direction, preserving the number of zones, and
neither the `active` flag nor the wind velocity affects the result (both are
universally quantified and absent from the right-hand sides). -/
theorem c8_cardinal_shift : ∀ (active : Bool) (velocity : ℚ) (zones : List FireZone),
    predict_fire_spread ⟨active, "north", velocity⟩ zones =
      zones.map (fun z => ⟨z.x, z.y - 1⟩) ∧
    predict_fire_spread ⟨active, "south", velocity⟩ zones =
      zones.map (fun z => ⟨z.x, z.y + 1⟩) ∧
    predict_fire_spread ⟨active, "east", velocity⟩ zones =
      zones.map (fun z => ⟨z.x + 1, z.y⟩) ∧
    predict_fire_spread ⟨active, "west", velocity⟩ zones =
      zones.map (fun z => ⟨z.x - 1, z.y⟩) := by
  intro active velocity zones
  refine ⟨?_, ?_, ?_, ?_⟩ <;>
  · induction zones with
    | nil => rfl
    | cons z rest ih => simpa [predict_fire_spread] using ih

/-- C2 fails on the code: the predictor never reads `wind["active"]`, so an
inactive wind with direction "north" still shifts the zone. -/
theorem c2_counterexample :
    predict_fire_spread ⟨false, "north", 0⟩ [⟨0, 0, 1⟩] ≠ ([] : List PredictedPos) := by
  simp [predict_fire_spread]

/-- C2 (amended): the predictor emits nothing exactly when the direction is
not one of the four cardinal strings; the `active` flag has no effect. -/
theorem c2_amended_no_cardinal_no_shift (w : Wind) (zones : List FireZone)
    (hn : w.direction ≠ "north") (hs : w.direction ≠ "south")
    (he : w.direction ≠ "east") (hw : w.direction ≠ "west") :
    predict_fire_spread w zones = [] := by
  induction zones with
  | nil => rfl
  | cons z rest ih =>
    simp only [predict_fire_spread, List.foldr_cons] at ih ⊢
    simp [hn, hs, he, hw, ih]

theorem c2_amended_witness :
    ((⟨false, "none", 0⟩ : Wind).direction ≠ "north" ∧
     (⟨false, "none", 0⟩ : Wind).direction ≠ "south" ∧
     (⟨false, "none", 0⟩ : Wind).direction ≠ "east" ∧
     (⟨false, "none", 0⟩ : Wind).direction ≠ "west") ∧
    predict_fire_spread ⟨false, "none", 0⟩ [⟨0, 0, 1⟩] = [] :=
  ⟨⟨by decide, by decide, by decide, by decide⟩,
   c2_amended_no_cardinal_no_shift ⟨false, "none", 0⟩ [⟨0, 0, 1⟩]
     (by decide) (by decide) (by decide) (by decide)⟩

/-! ## Empty UAV set in the prioritizer (C9) -/

/-- C9 fails on the code: with a non-empty zone list and an empty UAV list the
prioritizer raises the builtin ValueError coming out of `min()` on an empty
sequence — an undocumented generic error, not the spec's InputError. -/
theorem c9_counterexample :
    prioritize_fire_zones [⟨0, 0, 1⟩] [] =
      .error (.valueError "min() arg is an empty sequence") ∧
    is_input_error (prioritize_fire_zones [⟨0, 0, 1⟩] []) = false := by
  constructor <;> simp [prioritize_fire_zones, score_zones, is_input_error, Except.map]

/-- C9 (amended): with a non-empty zone list and an empty UAV list the
prioritizer fails, raising ValueError "min() arg is an empty sequence". -/
theorem c9_amended_value_error (zones : List FireZone) (uavs : List UAV)
    (hz : zones ≠ []) (hu : uavs = []) :
    prioritize_fire_zones zones uavs =
      .error (.valueError "min() arg is an empty sequence") := by
  subst hu
  cases zones with
  | nil => exact absurd rfl hz
  | cons z rest => simp [prioritize_fire_zones, score_zones, Except.map]

theorem c9_amended_witness :
    ([(⟨0, 0, 1⟩ : FireZone)] ≠ ([] : List FireZone)) ∧
    (([] : List UAV) = []) ∧
    prioritize_fire_zones [⟨0, 0, 1⟩] [] =
      .error (.valueError "min() arg is an empty sequence") :=
  ⟨by simp, rfl, c9_amended_value_error [⟨0, 0, 1⟩] [] (by simp) rfl⟩

/-! ## Prioritizer (C3) -/

lemma score_zones_cons_uav (zones : List FireZone) (u : UAV) (us : List UAV) :
    score_zones zones (u :: us) =
      .ok (zones.map fun z => ⟨z, priority_score z u us⟩) := by
  induction zones with
  | nil => rfl
  | cons z rest ih => simp [score_zones, ih, Except.map]

/-- C3: with a non-empty UAV list `u :: us`, the prioritizer succeeds and
returns one entry per zone scored `intensity / (distance_to_nearest_uav + 1)`
(a permutation of the scored input), sorted so that priorities are
non-increasing, and stably: two entries of equal priority keep the relative
order their zones had in the input. -/
theorem c3_prioritize_sorted_stable (zones : List FireZone) (u : UAV) (us : List UAV) :
    ∃ out, prioritize_fire_zones zones (u :: us) = .ok out ∧
      out.Perm (zones.map fun z =>
        (⟨z, (z.intensity : ℝ) / (distance_to_nearest_uav z u us + 1)⟩ : PrioritizedZone)) ∧
      out.Pairwise (fun a b => b.priority ≤ a.priority) ∧
      ∀ a b : PrioritizedZone, a.priority = b.priority →
        [a, b].Sublist (zones.map fun z =>
          (⟨z, (z.intensity : ℝ) / (distance_to_nearest_uav z u us + 1)⟩ : PrioritizedZone)) →
        [a, b].Sublist out := by
  have htrans : ∀ a b c : PrioritizedZone,
      decide (b.priority ≤ a.priority) = true →
      decide (c.priority ≤ b.priority) = true →
      decide (c.priority ≤ a.priority) = true := by
    intro a b c hab hbc
    simp only [decide_eq_true_eq] at *
    exact le_trans hbc hab
  have htotal : ∀ a b : PrioritizedZone,
      (decide (b.priority ≤ a.priority) || decide (a.priority ≤ b.priority)) = true := by
    intro a b
    simp only [Bool.or_eq_true, decide_eq_true_eq]
    exact le_total b.priority a.priority
  refine ⟨sort_by_priority_desc (zones.map fun z =>
    (⟨z, (z.intensity : ℝ) / (distance_to_nearest_uav z u us + 1)⟩ : PrioritizedZone)),
    ?_, ?_, ?_, ?_⟩
  · rw [prioritize_fire_zones, score_zones_cons_uav]
    rfl
  · simp only [sort_by_priority_desc]
    exact List.mergeSort_perm _ _
  · simp only [sort_by_priority_desc]
    have h := List.sorted_mergeSort htrans htotal (zones.map fun z =>
      (⟨z, (z.intensity : ℝ) / (distance_to_nearest_uav z u us + 1)⟩ : PrioritizedZone))
    exact h.imp (by intro a b hab; simpa using hab)
  · intro a b hpr hsub
    simp only [sort_by_priority_desc]
    refine List.sublist_mergeSort htrans htotal ?_ hsub
    simp [List.pairwise_cons, hpr]

/-! ## Allocator (C6) -/

lemma nearest_uav_mem (zx zy : ℚ) (us : List UAV) : ∀ u : UAV,
    nearest_uav zx zy u us ∈ u :: us := by
  induction us with
  | nil => intro u; simp [nearest_uav]
  | cons v t ih =>
    intro u
    have h0 : nearest_uav zx zy u (v :: t) =
        nearest_uav zx zy
          (if euclid zx zy v.x v.y < euclid zx zy u.x u.y then v else u) t := by
      simp [nearest_uav]
    rw [h0]
    split
    · exact List.mem_cons_of_mem u (ih v)
    · rcases List.mem_cons.mp (ih u) with h | h
      · rw [h]; exact List.mem_cons_self _ _
      · exact List.mem_cons_of_mem _ (List.mem_cons_of_mem _ h)

lemma nearest_uav_min (zx zy : ℚ) (us : List UAV) : ∀ u w : UAV, w ∈ u :: us →
    euclid zx zy (nearest_uav zx zy u us).x (nearest_uav zx zy u us).y ≤
      euclid zx zy w.x w.y := by
  induction us with
  | nil =>
    intro u w hw
    rcases List.mem_cons.mp hw with h | h
    · rw [h]; simp [nearest_uav]
    · cases h
  | cons v t ih =>
    intro u w hw
    have h0 : nearest_uav zx zy u (v :: t) =
        nearest_uav zx zy
          (if euclid zx zy v.x v.y < euclid zx zy u.x u.y then v else u) t := by
      simp [nearest_uav]
    rw [h0]
    by_cases hc : euclid zx zy v.x v.y < euclid zx zy u.x u.y
    · rw [if_pos hc]
      rcases List.mem_cons.mp hw with h | h
      · rw [h]
        exact le_trans (ih v v (List.mem_cons_self _ _)) (le_of_lt hc)
      · exact ih v w h
    · rw [if_neg hc]
      rcases List.mem_cons.mp hw with h | h
      · rw [h]; exact ih u u (List.mem_cons_self _ _)
      · rcases List.mem_cons.mp h with h' | h'
        · rw [h']
          exact le_trans (ih u u (List.mem_cons_self _ _)) (not_lt.mp hc)
        · exact ih u w (List.mem_cons_of_mem _ h')

lemma allocate_go_ok (m : ℚ) (u : UAV) (us : List UAV) (zs : List PrioritizedZone) :
    allocate_go m (some (u :: us)) zs =
      .ok (zs.map fun pz =>
        { id := (nearest_uav pz.zone.x pz.zone.y u us).id
          action := "move"
          target := (pz.zone.x, pz.zone.y)
          speed := m }) := by
  induction zs with
  | nil => rfl
  | cons pz rest ih => simp [allocate_go, ih, Except.map]

/-- C6: with an actual (non-None, non-empty) UAV list `u :: us`, the
allocator succeeds and produces exactly one adjustment per prioritized zone,
in zone order, targeting the zone's position with the configured max speed and
the id of the first UAV at minimal Euclidean distance to that zone; nothing
removes an assigned UAV from the pool, so the same UAV may be chosen for
several zones. -/
theorem c6_allocate_spec (max_uav_speed : ℚ) (zones : List PrioritizedZone)
    (u : UAV) (us : List UAV) :
    ∃ out, allocate_uavs max_uav_speed (some zones) (some (u :: us)) = .ok out ∧
      out = zones.map (fun pz =>
        { id := (nearest_uav pz.zone.x pz.zone.y u us).id
          action := "move"
          target := (pz.zone.x, pz.zone.y)
          speed := max_uav_speed }) ∧
      ∀ pz : PrioritizedZone,
        nearest_uav pz.zone.x pz.zone.y u us ∈ u :: us ∧
        ∀ w ∈ u :: us,
          euclid pz.zone.x pz.zone.y (nearest_uav pz.zone.x pz.zone.y u us).x
              (nearest_uav pz.zone.x pz.zone.y u us).y ≤
            euclid pz.zone.x pz.zone.y w.x w.y := by
  refine ⟨_, ?_, rfl, ?_⟩
  · simpa [allocate_uavs] using allocate_go_ok max_uav_speed u us zones
  · intro pz
    exact ⟨nearest_uav_mem _ _ _ _, fun w hw => nearest_uav_min _ _ _ _ w hw⟩

/-! ## Collision resolver (C7) -/

/-- C7: for any outcome of the `np.random.choice([-1, 1])` stream, the
resolver returns exactly two move adjustments, one per UAV of the pair, with
that UAV's id, speed equal to half the configured max speed, and target equal
to the UAV's position displaced by an independent signed unit offset on each
axis. -/
theorem c7_resolve_collision_spec (max_uav_speed : ℚ) (uav1 uav2 : UAV) (rand : ℕ → ℚ)
    (h : ∀ n, rand n = -1 ∨ rand n = 1) :
    (resolve_collision max_uav_speed uav1 uav2 rand).length = 2 ∧
    ∃ d1x d1y d2x d2y : ℚ,
      (d1x = -1 ∨ d1x = 1) ∧ (d1y = -1 ∨ d1y = 1) ∧
      (d2x = -1 ∨ d2x = 1) ∧ (d2y = -1 ∨ d2y = 1) ∧
      resolve_collision max_uav_speed uav1 uav2 rand =
        [{ id := uav1.id, action := "move",
           target := (uav1.x + d1x, uav1.y + d1y), speed := max_uav_speed / 2 },
         { id := uav2.id, action := "move",
           target := (uav2.x + d2x, uav2.y + d2y), speed := max_uav_speed / 2 }] :=
  ⟨rfl, rand 0, rand 1, rand 2, rand 3, h 0, h 1, h 2, h 3, rfl⟩

theorem c7_witness :
    (resolve_collision 2 ⟨1, 0, 0⟩ ⟨2, 1, 1⟩ fun _ => 1).length = 2 ∧
    ∃ d1x d1y d2x d2y : ℚ,
      (d1x = -1 ∨ d1x = 1) ∧ (d1y = -1 ∨ d1y = 1) ∧
      (d2x = -1 ∨ d2x = 1) ∧ (d2y = -1 ∨ d2y = 1) ∧
      resolve_collision 2 ⟨1, 0, 0⟩ ⟨2, 1, 1⟩ (fun _ => 1) =
        [{ id := (1 : ℤ), action := "move",
           target := ((0 : ℚ) + d1x, (0 : ℚ) + d1y), speed := 2 / 2 },
         { id := (2 : ℤ), action := "move",
           target := ((1 : ℚ) + d2x, (1 : ℚ) + d2y), speed := 2 / 2 }] :=
  c7_resolve_collision_spec 2 ⟨1, 0, 0⟩ ⟨2, 1, 1⟩ (fun _ => 1) fun _ => Or.inr rfl

/-! ## Collision detector (C5) -/

lemma euclid_symm (x1 y1 x2 y2 : ℚ) : euclid x1 y1 x2 y2 = euclid x2 y2 x1 y1 := by
  unfold euclid
  ring_nf

lemma pair_sublist_cons {α : Type} {A B x : α} {t : List α} :
    [A, B].Sublist (x :: t) ↔ (A = x ∧ [B].Sublist t) ∨ [A, B].Sublist t := by
  constructor
  · intro h
    cases h with
    | cons _ h => exact Or.inr h
    | cons₂ _ h => exact Or.inl ⟨rfl, h⟩
  · rintro (⟨rfl, h⟩ | h)
    · exact h.cons₂ A
    · exact h.cons x

lemma mem_detect_collisions {l : List UAV} {s : ℚ} {A B : UAV} :
    (A, B) ∈ detect_collisions l s ↔
      [A, B].Sublist l ∧ euclid A.x A.y B.x B.y < (s : ℝ) := by
  induction l with
  | nil => simp [detect_collisions]
  | cons u rest ih =>
    simp only [detect_collisions, List.mem_append, List.mem_map, List.mem_filter,
      decide_eq_true_eq, ih, pair_sublist_cons, List.singleton_sublist]
    constructor
    · rintro (⟨v, ⟨hv, hd⟩, heq⟩ | ⟨hsub, hd⟩)
      · injection heq with h1 h2
        subst h1
        subst h2
        exact ⟨Or.inl ⟨rfl, hv⟩, hd⟩
      · exact ⟨Or.inr hsub, hd⟩
    · rintro ⟨(⟨rfl, hB⟩ | hsub), hd⟩
      · exact Or.inl ⟨B, ⟨hB, hd⟩, rfl⟩
      · exact Or.inr ⟨hsub, hd⟩

lemma sublist_pair_of_mem {α : Type} {l : List α} {A B : α}
    (hA : A ∈ l) (hB : B ∈ l) (hne : A ≠ B) :
    [A, B].Sublist l ∨ [B, A].Sublist l := by
  induction l with
  | nil => cases hA
  | cons x t ih =>
    rcases List.mem_cons.mp hA with rfl | hA'
    · rcases List.mem_cons.mp hB with rfl | hB'
      · exact absurd rfl hne
      · exact Or.inl ((List.singleton_sublist.mpr hB').cons₂ A)
    · rcases List.mem_cons.mp hB with rfl | hB'
      · exact Or.inr ((List.singleton_sublist.mpr hA').cons₂ B)
      · rcases ih hA' hB' with h | h
        · exact Or.inl (h.cons x)
        · exact Or.inr (h.cons x)

lemma not_pair_sublist_both {α : Type} {l : List α} (hnd : l.Nodup) {A B : α}
    (h1 : [A, B].Sublist l) (h2 : [B, A].Sublist l) : False := by
  induction l with
  | nil => cases h1
  | cons x t ih =>
    have hx : x ∉ t := (List.nodup_cons.mp hnd).1
    have hnd' : t.Nodup := (List.nodup_cons.mp hnd).2
    rcases pair_sublist_cons.mp h1 with ⟨rfl, hB⟩ | h1'
    · rcases pair_sublist_cons.mp h2 with ⟨heq, hA2⟩ | h2'
      · exact hx (List.singleton_sublist.mp hA2)
      · exact hx (h2'.subset (by simp))
    · rcases pair_sublist_cons.mp h2 with ⟨rfl, hA2⟩ | h2'
      · exact hx (h1'.subset (by simp))
      · exact ih hnd' h1' h2'

lemma nodup_detect_collisions {l : List UAV} {s : ℚ} (hnd : l.Nodup) :
    (detect_collisions l s).Nodup := by
  induction l with
  | nil => simp [detect_collisions]
  | cons u rest ih =>
    have hu : u ∉ rest := (List.nodup_cons.mp hnd).1
    have hnd' : rest.Nodup := (List.nodup_cons.mp hnd).2
    simp only [detect_collisions]
    refine List.Nodup.append ?_ (ih hnd') ?_
    · refine (hnd'.filter _).map ?_
      intro a b hab
      simpa using hab
    · intro p hp hp'
      obtain ⟨v, hv, hpe⟩ := List.mem_map.mp hp
      rw [← hpe] at hp'
      exact hu ((mem_detect_collisions.mp hp').1.subset (by simp))

/-- C5: over a UAV list with pairwise-distinct ids (the data-model invariant),
the detector reports only pairs of distinct listed UAVs at distance strictly
below the threshold; every such pair is reported in exactly one orientation;
the report list has no duplicates; and no UAV is paired with itself. -/
theorem c5_detect_collisions_spec (l : List UAV) (s : ℚ)
    (h : (l.map UAV.id).Nodup) :
    (∀ A B : UAV, (A, B) ∈ detect_collisions l s →
        A ∈ l ∧ B ∈ l ∧ A ≠ B ∧ euclid A.x A.y B.x B.y < (s : ℝ)) ∧
    (∀ A B : UAV, A ∈ l → B ∈ l → A ≠ B → euclid A.x A.y B.x B.y < (s : ℝ) →
        (A, B) ∈ detect_collisions l s ∨ (B, A) ∈ detect_collisions l s) ∧
    (∀ A B : UAV, (A, B) ∈ detect_collisions l s → (B, A) ∉ detect_collisions l s) ∧
    (detect_collisions l s).Nodup ∧
    (∀ A : UAV, (A, A) ∉ detect_collisions l s) := by
  have hnd : l.Nodup := h.of_map
  refine ⟨?_, ?_, ?_, nodup_detect_collisions hnd, ?_⟩
  · intro A B hmem
    obtain ⟨hsub, hd⟩ := mem_detect_collisions.mp hmem
    refine ⟨hsub.subset (by simp), hsub.subset (by simp), ?_, hd⟩
    rintro rfl
    have : ([A, A] : List UAV).Nodup := hnd.sublist hsub
    simp at this
  · intro A B hA hB hne hd
    rcases sublist_pair_of_mem hA hB hne with hsub | hsub
    · exact Or.inl (mem_detect_collisions.mpr ⟨hsub, hd⟩)
    · exact Or.inr (mem_detect_collisions.mpr ⟨hsub, euclid_symm A.x A.y B.x B.y ▸ hd⟩)
  · intro A B h1 h2
    exact not_pair_sublist_both hnd (mem_detect_collisions.mp h1).1
      (mem_detect_collisions.mp h2).1
  · intro A hmem
    have : ([A, A] : List UAV).Nodup := hnd.sublist (mem_detect_collisions.mp hmem).1
    simp at this

theorem c5_witness :
    (([⟨1, 0, 0⟩, ⟨2, 3, 4⟩] : List UAV).map UAV.id).Nodup ∧
    ((∀ A B : UAV, (A, B) ∈ detect_collisions [⟨1, 0, 0⟩, ⟨2, 3, 4⟩] 10 →
        A ∈ ([⟨1, 0, 0⟩, ⟨2, 3, 4⟩] : List UAV) ∧ B ∈ ([⟨1, 0, 0⟩, ⟨2, 3, 4⟩] : List UAV) ∧
          A ≠ B ∧ euclid A.x A.y B.x B.y < ((10 : ℚ) : ℝ)) ∧
     (∀ A B : UAV, A ∈ ([⟨1, 0, 0⟩, ⟨2, 3, 4⟩] : List UAV) →
        B ∈ ([⟨1, 0, 0⟩, ⟨2, 3, 4⟩] : List UAV) → A ≠ B →
        euclid A.x A.y B.x B.y < ((10 : ℚ) : ℝ) →
        (A, B) ∈ detect_collisions [⟨1, 0, 0⟩, ⟨2, 3, 4⟩] 10 ∨
          (B, A) ∈ detect_collisions [⟨1, 0, 0⟩, ⟨2, 3, 4⟩] 10) ∧
     (∀ A B : UAV, (A, B) ∈ detect_collisions [⟨1, 0, 0⟩, ⟨2, 3, 4⟩] 10 →
        (B, A) ∉ detect_collisions [⟨1, 0, 0⟩, ⟨2, 3, 4⟩] 10) ∧
     (detect_collisions [⟨1, 0, 0⟩, ⟨2, 3, 4⟩] 10).Nodup ∧
     (∀ A : UAV, (A, A) ∉ detect_collisions [⟨1, 0, 0⟩, ⟨2, 3, 4⟩] 10)) :=
  ⟨by decide, c5_detect_collisions_spec [⟨1, 0, 0⟩, ⟨2, 3, 4⟩] 10 (by decide)⟩

/-! ## Composing plan after analyze (C1) -/

lemma analyze_ok_of (s : Strategy) (data : Snapshot) (u : UAV) (us : List UAV)
    (z : FireZone) (zs : List FireZone)
    (hu : data.uav_details = u :: us) (hz : data.fire_zones = z :: zs) :
    analyze s data = .ok
      ({ prioritized_zones := sort_by_priority_desc
           ((z :: zs).map fun zz => ⟨zz, priority_score zz u us⟩)
         predicted_zones := predict_fire_spread data.wind data.fire_zones
         collision_warnings := detect_collisions data.uav_details s.collision_distance },
       { s with observation_radius :=
           adjust_observation_radius data.fire_spread_speed s.observation_radius }) := by
  simp only [analyze, hu, hz, prioritize_fire_zones, score_zones_cons_uav, Except.map]

lemma plan_error_of_nonempty (s : Strategy) (rand : ℕ → ℚ) (res : AnalysisResults)
    (h : res.prioritized_zones ≠ []) :
    plan s rand res = .error (.typeError "NoneType object is not iterable") := by
  obtain ⟨pz, rest, hpz⟩ := List.exists_cons_of_ne_nil h
  simp [plan, allocate_uavs, AnalysisResults.get_prioritized_zones,
    AnalysisResults.get_uav_details, hpz, allocate_go, Except.bind]

/-- C1: for any snapshot with at least one fire zone and at least one UAV,
`analyze` succeeds but its result dict omits the UAV positions
(`get_uav_details` is None), so `plan` passes None to `allocate_uavs`, which
fails with the TypeError from iterating None at the first prioritized zone
instead of producing assignments. -/
theorem c1_plan_after_analyze_fails (s : Strategy) (rand : ℕ → ℚ) (data : Snapshot)
    (hz : data.fire_zones ≠ []) (hu : data.uav_details ≠ []) :
    ∃ res s', analyze s data = .ok (res, s') ∧
      res.get_uav_details = none ∧
      plan s rand res = .error (.typeError "NoneType object is not iterable") := by
  obtain ⟨u, us, hus⟩ := List.exists_cons_of_ne_nil hu
  obtain ⟨z, zs, hzs⟩ := List.exists_cons_of_ne_nil hz
  refine ⟨_, _, analyze_ok_of s data u us z zs hus hzs, rfl, ?_⟩
  apply plan_error_of_nonempty
  intro hnil
  simp only [sort_by_priority_desc] at hnil
  have hp := List.mergeSort_perm ((z :: zs).map fun zz =>
    (⟨zz, priority_score zz u us⟩ : PrioritizedZone))
    (fun a b => decide (b.priority ≤ a.priority))
  rw [hnil] at hp
  have hlen := hp.length_eq
  simp at hlen

theorem c1_witness :
    (([⟨0, 0, 1⟩] : List FireZone) ≠ [] ∧ ([⟨1, 0, 0⟩] : List UAV) ≠ []) ∧
    ∃ res s',
      analyze {} ⟨[⟨1, 0, 0⟩], [⟨0, 0, 1⟩], ⟨false, "none", 0⟩, false, 2⟩ = .ok (res, s') ∧
      res.get_uav_details = none ∧
      plan {} (fun _ => 1) res = .error (.typeError "NoneType object is not iterable") :=
  ⟨⟨by simp, by simp⟩,
   c1_plan_after_analyze_fails {} (fun _ => 1)
     ⟨[⟨1, 0, 0⟩], [⟨0, 0, 1⟩], ⟨false, "none", 0⟩, false, 2⟩ (by simp) (by simp)⟩
